import Mathlib

/-!
Verification of the game-wishlist bot (src/index.ts variant in src/unnamed/part_000).

The development shallowly embeds the pure decision logic of the bot:
string utilities used by the handlers, the classifier `getGameType`,
the Steam search cache (`searchSteamGame`), the `wishlist` slash-command
handler, and the `messageReactionAdd` completion monitor.  External I/O
(fetch, Discord API) is modelled by explicit oracle parameters; mutable
module-level state (`singleList`, `multiList`, `steamCache`) is threaded
explicitly.  Strings are ASCII, matching the inputs the bot manipulates.
-/

namespace GameWishlistBot

/-! ## String primitives (ASCII models of the JS operations used) -/

/-- Model of JS `toLowerCase()` restricted to ASCII. -/
def strToLower (s : String) : String := ⟨s.data.map Char.toLower⟩

/-- Whether `pre` is a leading segment of `l` (used to model regex/string scans). -/
def listStartsWith : List Char → List Char → Bool
  | _, [] => true
  | [], _ :: _ => false
  | c :: cs, d :: ds => c == d && listStartsWith cs ds

/-- Whether `sub` occurs contiguously inside `l`: model of JS `String.includes`. -/
def listHasSub (sub : List Char) : List Char → Bool
  | [] => sub.isEmpty
  | c :: cs => listStartsWith (c :: cs) sub || listHasSub sub cs

/-- JS `hay.includes(sub)` (substring containment). -/
def strHasSub (hay sub : String) : Bool := listHasSub sub.data hay.data

/-- Model of JS `trim()`: drop whitespace from both ends. -/
def trimChars (l : List Char) : List Char :=
  ((l.dropWhile Char.isWhitespace).reverse.dropWhile Char.isWhitespace).reverse

/-- JS `trim()` on strings. -/
def strTrim (s : String) : String := ⟨trimChars s.data⟩

/-! ## Classifier (`getGameType`, part_000 lines 90-97) -/

/-- The declared return type of `getGameType`:
`'single' | 'multi' | 'both' | 'unknown'`. -/
inductive GameType where
  | single
  | multi
  | both
  | unknown
deriving DecidableEq, Repr

/-- `getGameType` (part_000 lines 90-97): lower-case all tags;
`isSingle` = exact element "single-player"; `isMulti` = some tag has
"multiplayer", "co-op" or "cross-platform" as a substring; `multi`
takes precedence over `single`; otherwise `unknown`. -/
def getGameType (categories : List String) : GameType :=
  let lower := categories.map strToLower
  let isSingle := lower.contains "single-player"
  let isMulti := lower.any fun c =>
    strHasSub c "multiplayer" || strHasSub c "co-op" || strHasSub c "cross-platform"
  if isMulti then .multi
  else if isSingle then .single
  else .unknown

/-! ## Data model (part_000 lines 27-31) -/

/-- `WishlistEntry` (part_000 line 27). -/
structure WishlistEntry where
  name : String
  appid : Nat
  suggester : String
deriving DecidableEq, Repr

/-- One cached Steam search result (part_000 line 31 / line 60). -/
structure SearchResult where
  name : String
  appid : Nat
  url : String
deriving DecidableEq, Repr

/-- One parsed item of the store-search JSON response (`data.items`,
part_000 lines 59-60); `Array.isArray` coercion of a missing or non-array
`items` field to `[]` is folded into the oracle below. -/
structure SearchItem where
  name : String
  id : Nat
deriving DecidableEq, Repr

/-- `steamCache` (part_000 line 31): mapping from cache key to results,
modelled as an association list; assignment prepends (lookup finds the
newest binding, matching JS object-key update). -/
abbrev SteamCache := List (String × List SearchResult)

/-- JS `steamCache[cacheKey]` lookup. -/
def cacheGet : SteamCache → String → Option (List SearchResult)
  | [], _ => none
  | (k', v) :: rest, k => if k' == k then some v else cacheGet rest k

/-- JS `steamCache[cacheKey] = results` assignment. -/
def cacheSet (c : SteamCache) (k : String) (v : List SearchResult) : SteamCache :=
  (k, v) :: c

/-! ## Catalog resolver (`searchSteamGame`, part_000 lines 45-68) -/

/-- Outcome of the external fetch inside `searchSteamGame`'s `try` block:
`ok items` is any run reaching line 60 (2xx response, JSON parsed, `items`
coerced to an array); `fail` is any thrown error — abort on the ~1.5s
timeout, the `!res.ok` throw on a non-2xx status, or a transport/JSON
error — all landing in the `catch` (lines 64-67). -/
inductive FetchOutcome where
  | ok (items : List SearchItem)
  | fail
deriving DecidableEq, Repr

/-- Result of one `searchSteamGame` call: the returned list, the cache
after the call, and whether an external request was issued. -/
structure SearchOut where
  results : List SearchResult
  cache : SteamCache
  networkUsed : Bool
deriving DecidableEq, Repr

/-- The cache key `"search:" ++ query.toLowerCase().trim()` (lines 46-47). -/
def searchKey (query : String) : String :=
  "search:" ++ strTrim (strToLower query)

/-- The store URL built for item `id` (line 60). -/
def appUrl (id : Nat) : String :=
  "https://store.steampowered.com/app/" ++ toString id

/-- `searchSteamGame` (part_000 lines 45-68): return the cached list on a
hit; otherwise take the first 10 items of a successful fetch, cache and
return them; on any thrown error return `[]` without touching the cache. -/
def searchSteamGame (cache : SteamCache) (query : String) (net : FetchOutcome) :
    SearchOut :=
  let cacheKey := searchKey query
  match cacheGet cache cacheKey with
  | some rs => ⟨rs, cache, false⟩
  | none =>
    match net with
    | .ok items =>
      let results := (items.take 10).map fun it => ⟨it.name, it.id, appUrl it.id⟩
      ⟨results, cacheSet cache cacheKey results, true⟩
    | .fail => ⟨[], cache, true⟩

/-! ## Submission handler (`wishlist` command, part_000 lines 131-172) -/

/-- The fields of the detail record used by the handler
(`fetchSteamDetails`, part_000 lines 70-88; `none` models both the
`catch` and the absent-record `return null`). -/
structure SteamDetails where
  name : String
  description : String
  price : String
  headerImage : String
  url : String
  categories : List String
  genres : List String
deriving DecidableEq, Repr

/-- The terminal reply of one `wishlist` command invocation. -/
inductive SubmitOutcome where
  | wrongChannel
  | notFound
  | noDetails
  | unknownType
  | duplicate
  | success
deriving DecidableEq, Repr

/-- The module-level mutable state read and written by the command handler:
`singleList`, `multiList`, `steamCache` (part_000 lines 29-31). -/
structure SubState where
  singleList : List WishlistEntry
  multiList : List WishlistEntry
  steamCache : SteamCache
deriving DecidableEq, Repr

/-- The per-invocation inputs of the command handler; the two fetch oracles
stand for the external calls made during the invocation. -/
structure SubmitInput where
  channelId : String
  submissionChannelId : String
  gameName : String
  username : String
  searchNet : FetchOutcome
  detailsResult : Option SteamDetails
deriving DecidableEq, Repr

/-- Candidate choice (part_000 line 144): exact case-insensitive name
match, else the first search result, else none. -/
def chooseCandidate (cands : List SearchResult) (gameName : String) :
    Option SearchResult :=
  match cands.find? (fun m => strToLower m.name == strToLower gameName) with
  | some m => some m
  | none => cands.head?

/-- The duplicate check (part_000 lines 160-162): `single` and `both` check
the single collection, anything else (reached only with `multi`) checks the
multi collection. -/
def isDuplicateFor (ty : GameType) (singleL multiL : List WishlistEntry)
    (appid : Nat) : Bool :=
  if ty = .single ∨ ty = .both then singleL.any fun g => g.appid == appid
  else multiL.any fun g => g.appid == appid

/-- The `wishlist` command handler (part_000 lines 131-172), returning the
state after the invocation and the terminal reply. -/
def wishlistCommand (st : SubState) (inp : SubmitInput) :
    SubState × SubmitOutcome :=
  if inp.channelId != inp.submissionChannelId then (st, .wrongChannel)
  else
    let so := searchSteamGame st.steamCache inp.gameName inp.searchNet
    let st1 : SubState := { st with steamCache := so.cache }
    match chooseCandidate so.results inp.gameName with
    | none => (st1, .notFound)
    | some steamGame =>
      match inp.detailsResult with
      | none => (st1, .noDetails)
      | some details =>
        let ty := getGameType details.categories
        if ty = .unknown then (st1, .unknownType)
        else
          let entry : WishlistEntry := ⟨steamGame.name, steamGame.appid, inp.username⟩
          if isDuplicateFor ty st1.singleList st1.multiList entry.appid then
            (st1, .duplicate)
          else
            let st2 := if ty = .single then
              { st1 with singleList := st1.singleList ++ [entry] } else st1
            let st3 := if ty = .multi then
              { st2 with multiList := st2.multiList ++ [entry] } else st2
            (st3, .success)

/-! ## Completion monitor (`messageReactionAdd`, part_000 lines 174-231) -/

/-- A Discord user as seen by the handler. -/
structure User where
  id : String
  bot : Bool
deriving DecidableEq, Repr

/-- A fetched guild member: its user and the names of its roles. -/
structure Member where
  user : User
  roleNames : List String
deriving DecidableEq, Repr

/-- A message embed: only the title and URL are read by the handler. -/
structure Embed where
  title : Option String
  url : Option String
deriving DecidableEq, Repr

/-- The reacted-to message: its embeds and, per reaction type present,
the fetched list of users who reacted with it. -/
structure Message where
  embeds : List Embed
  reactions : List (List User)
deriving DecidableEq, Repr

/-- One reaction-add event together with the guild data the handler
fetches: the member list (or cache fallback) and the names of the guild's
existing voice channels. -/
structure ReactionEvent where
  user : User
  inGuild : Bool
  message : Message
  members : List Member
  voiceChannelNames : List String
deriving DecidableEq, Repr

/-- The two wishlist collections mutated by the completion monitor. -/
structure Store where
  singleList : List WishlistEntry
  multiList : List WishlistEntry
deriving DecidableEq, Repr

/-- The member filter of part_000 lines 188-190: not a bot account and no
role whose lower-cased name has "bot" as a substring. -/
def isHumanMember (m : Member) : Bool :=
  !m.user.bot && !(m.roleNames.any fun r => strHasSub (strToLower r) "bot")

/-- `totalHumans` (part_000 lines 188-190). -/
def totalHumans (members : List Member) : Nat :=
  (members.filter isHumanMember).length

/-- All non-bot user ids over every reaction type of the message, in
iteration order (part_000 lines 192-198 before deduplication). -/
def nonBotReactorIds (msg : Message) : List String :=
  ((msg.reactions.flatten).filter fun u => !u.bot).map User.id

/-- `uniqueReactors.size` (part_000 lines 192-198): the JS `Set` holds each
id once, so its size is the number of distinct ids added. -/
def uniqueReactorsSize (msg : Message) : Nat :=
  (nonBotReactorIds msg).dedup.length

/-- Leading run of ASCII digits (the `\d+` group of the appid regex). -/
def leadingDigits : List Char → List Char
  | [] => []
  | c :: cs => if c.isDigit then c :: leadingDigits cs else []

/-- JS `parseInt` on a digit run (exact; the bot's appids are far below
the 2^53 float precision bound). -/
def parseDigits (ds : List Char) : Nat :=
  ds.foldl (fun acc c => acc * 10 + (c.toNat - 48)) 0

/-- Leftmost match of `/\/app\/(\d+)/` (part_000 line 202): first position
where "/app/" is followed by at least one digit; the group is the maximal
digit run there. -/
def findAppid : List Char → Option Nat
  | [] => none
  | c :: cs =>
    if listStartsWith (c :: cs) "/app/".data then
      match leadingDigits ((c :: cs).drop 5) with
      | [] => findAppid cs
      | d :: ds => some (parseDigits (d :: ds))
    else findAppid cs

/-- `embed?.url?.match(/\/app\/(\d+)/)` followed by `parseInt` (lines 202-204). -/
def extractAppid (url? : Option String) : Option Nat :=
  url?.bind fun u => findAppid u.data

/-- JS `\w`: ASCII letter, digit or underscore. -/
def isWordChar (c : Char) : Bool := c.isAlpha || c.isDigit || c == '_'

/-- State machine for `.replace(/\w\S*/g, w => w.charAt(0).toUpperCase() +
w.slice(1).toLowerCase())` (line 212): the flag records whether the scan is
inside a match (a match starts at a `\w` character outside any match and
extends over the following non-whitespace characters). -/
def titleCaseGo : Bool → List Char → List Char
  | _, [] => []
  | false, c :: cs =>
    if isWordChar c then c.toUpper :: titleCaseGo true cs
    else c :: titleCaseGo false cs
  | true, c :: cs =>
    if c.isWhitespace then c :: titleCaseGo false cs
    else c.toLower :: titleCaseGo true cs

/-- `capitalizedName` derivation (line 212): title-case then
`.substring(0, 90)`. -/
def deriveChannelName (title : String) : String :=
  ⟨(titleCaseGo false title.data).take 90⟩

/-- Everything the quorum branch decides, plus the store it leaves behind:
whether the quorum condition held, whether the message delete was reached,
the appid extracted from the first embed's URL, whether the voice-channel
branch (`isMultiGame`) was entered, the derived channel name, and whether
`guild.channels.create` was invoked (no lower-cased name matched). -/
structure ReactionOutcome where
  store : Store
  quorum : Bool
  messageDeleted : Bool
  extractedAppid : Option Nat
  isMultiGame : Bool
  channelName : Option String
  voiceCreated : Bool
deriving DecidableEq, Repr

/-- The dual filter of part_000 lines 207-208: drop the appid from both
collections. -/
def removeByCatalogId (appid : Nat) (st : Store) : Store :=
  ⟨st.singleList.filter (fun g => g.appid != appid),
   st.multiList.filter (fun g => g.appid != appid)⟩

/-- Outcome of an invocation that leaves the store untouched and performs
no side effect (guard return or quorum not met). -/
def noopOutcome (st : Store) : ReactionOutcome :=
  ⟨st, false, false, none, false, none, false⟩

/-- Body of the `uniqueReactors.size >= totalHumans` branch (part_000
lines 200-230): extract the appid from the first embed's URL; on success
look up `isMultiGame` in the multi collection before filtering both
collections; when multiplayer, derive the channel name and call create
unless some voice channel's name equals the lower-cased derived name
(`c.name === capitalizedName?.toLowerCase()`, line 213); in every branch
the message delete at line 229 is reached. -/
def quorumBranch (ev : ReactionEvent) (st : Store) : ReactionOutcome :=
  match ev.message.embeds.head? with
  | none => ⟨st, true, true, none, false, none, false⟩
  | some embed =>
    match extractAppid embed.url with
    | none => ⟨st, true, true, none, false, none, false⟩
    | some appid =>
      let isMulti := st.multiList.any fun g => g.appid == appid
      let st' := removeByCatalogId appid st
      if isMulti then
        let capName := embed.title.map deriveChannelName
        let existing := match capName with
          | some cn => ev.voiceChannelNames.any fun n => n == strToLower cn
          | none => false
        ⟨st', true, true, some appid, true, capName, !existing⟩
      else
        ⟨st', true, true, some appid, false, none, false⟩

/-- The `messageReactionAdd` handler (part_000 lines 174-231): ignore bot
users and DMs; compute `totalHumans` and `uniqueReactors`; run the quorum
branch when `uniqueReactors.size >= totalHumans`. -/
def messageReactionAdd (ev : ReactionEvent) (st : Store) : ReactionOutcome :=
  if ev.user.bot || !ev.inGuild then noopOutcome st
  else if totalHumans ev.members ≤ uniqueReactorsSize ev.message then
    quorumBranch ev st
  else noopOutcome st

/-! ## Concrete example inputs used by witnesses and the counterexample -/

/-- Detail record classifying as single-player. -/
def exDetailsSingle : SteamDetails :=
  ⟨"Portal", "desc", "Free", "img", "url", ["Single-player"], []⟩

/-- State whose single collection and cache already hold Portal (id 400). -/
def exSubState : SubState :=
  ⟨[⟨"Portal", 400, "bob"⟩], [], [("search:portal", [⟨"Portal", 400, appUrl 400⟩])]⟩

/-- Submission for "Portal" from the designated channel. -/
def exSubmit : SubmitInput :=
  ⟨"chan", "chan", "Portal", "alice", .fail, some exDetailsSingle⟩

/-- The candidate the handler picks for `exSubmit`. -/
def exCandidate : SearchResult := ⟨"Portal", 400, appUrl 400⟩

/-- Submission issued from a non-designated channel. -/
def exSubmitWrong : SubmitInput :=
  ⟨"other", "chan", "Portal", "alice", .fail, none⟩

/-- Reaction event: one human reactor, one human member. -/
def exEventQuorum : ReactionEvent :=
  ⟨⟨"w1", false⟩, true, ⟨[], [[⟨"w1", false⟩]]⟩, [⟨⟨"m1", false⟩, []⟩], []⟩

/-- Reaction event whose embed URL carries appid 9. -/
def exEventApp : ReactionEvent :=
  ⟨⟨"u", false⟩, true, ⟨[⟨some "X", some (appUrl 9)⟩], [[⟨"u", false⟩]]⟩, [], []⟩

/-- Store holding appid 9 in the multi collection. -/
def exStoreMulti : Store := ⟨[], [⟨"X", 9, "s"⟩]⟩

/-- Reaction event for a multiplayer entry titled "deep rock galactic",
in a guild that already has a voice channel "Deep Rock Galactic". -/
def exEventDrg : ReactionEvent :=
  ⟨⟨"u1", false⟩, true,
    ⟨[⟨some "deep rock galactic", some (appUrl 548430)⟩], [[⟨"u1", false⟩]]⟩,
    [], ["Deep Rock Galactic"]⟩

/-- Store holding the Deep Rock Galactic entry in the multi collection. -/
def exStoreDrg : Store := ⟨[], [⟨"Deep Rock Galactic", 548430, "alice"⟩]⟩

/-- Reaction event in a guild whose members are all bot accounts or hold a
role whose name contains "bot". -/
def exEventAllBots : ReactionEvent :=
  ⟨⟨"u2", false⟩, true, ⟨[⟨some "T", some (appUrl 5)⟩], [[⟨"u2", false⟩]]⟩,
    [⟨⟨"b1", true⟩, []⟩, ⟨⟨"b2", false⟩, ["Bot Role"]⟩], []⟩

/-- Store holding appid 5 in the single collection. -/
def exStoreC10 : Store := ⟨[⟨"T", 5, "x"⟩], []⟩

/-- Spec-side predicate: some tag, lower-cased, has a multiplayer-indicating
substring. -/
def hasMultiTag (categories : List String) : Prop :=
  ∃ c ∈ categories,
    strHasSub (strToLower c) "multiplayer" = true ∨
    strHasSub (strToLower c) "co-op" = true ∨
    strHasSub (strToLower c) "cross-platform" = true

/-- Spec-side predicate: the lower-cased tags contain "single-player" as an
exact element. -/
def hasSingleTag (categories : List String) : Prop :=
  "single-player" ∈ categories.map strToLower

instance (categories : List String) : Decidable (hasMultiTag categories) := by
  unfold hasMultiTag; infer_instance

instance (categories : List String) : Decidable (hasSingleTag categories) := by
  unfold hasSingleTag; infer_instance

/-- Claim C2: `getGameType` returns `multi` exactly when some tag, lower-cased,
has "multiplayer", "co-op" or "cross-platform" as a substring (even when
"single-player" is present); otherwise `single` exactly when the lower-cased
tags contain "single-player" as an exact element; otherwise `unknown`; and the
declared `both` value is never produced. -/
theorem getGameType_spec (categories : List String) :
    (getGameType categories = .multi ↔ hasMultiTag categories) ∧
    (getGameType categories = .single ↔
      ¬ hasMultiTag categories ∧ hasSingleTag categories) ∧
    (getGameType categories = .unknown ↔
      ¬ hasMultiTag categories ∧ ¬ hasSingleTag categories) ∧
    getGameType categories ≠ .both := by
  unfold getGameType hasMultiTag hasSingleTag
  by_cases hm : ∃ c ∈ categories,
      strHasSub (strToLower c) "multiplayer" = true ∨
      strHasSub (strToLower c) "co-op" = true ∨
      strHasSub (strToLower c) "cross-platform" = true
  · have hb : (categories.map strToLower).any (fun c =>
        strHasSub c "multiplayer" || strHasSub c "co-op" ||
        strHasSub c "cross-platform") = true := by
      simp only [List.any_map, List.any_eq_true, Function.comp]
      obtain ⟨c, hc, h⟩ := hm
      exact ⟨c, hc, by rcases h with h | h | h <;> simp [h]⟩
    simp [hb, hm]
  · have hb : (categories.map strToLower).any (fun c =>
        strHasSub c "multiplayer" || strHasSub c "co-op" ||
        strHasSub c "cross-platform") = false := by
      rw [Bool.eq_false_iff]
      intro hcon
      apply hm
      simp only [List.any_map, List.any_eq_true, Function.comp] at hcon
      obtain ⟨c, hc, h⟩ := hcon
      refine ⟨c, hc, ?_⟩
      rcases Bool.or_eq_true_iff.mp h with h' | h'
      · rcases Bool.or_eq_true_iff.mp h' with h'' | h''
        · exact Or.inl h''
        · exact Or.inr (Or.inl h'')
      · exact Or.inr (Or.inr h')
    by_cases hs : "single-player" ∈ categories.map strToLower
    · simp [hb, hs, hm, List.elem_iff.mpr hs]
    · have hs' : (categories.map strToLower).contains "single-player" = false := by
        rw [Bool.eq_false_iff]
        intro hcon
        exact hs (List.elem_iff.mp hcon)
      simp [hb, hs', hm, hs]


/-! ## Helper lemmas -/

theorem cacheGet_cacheSet (c : SteamCache) (k k' : String) (v : List SearchResult) :
    cacheGet (cacheSet c k v) k' = if k == k' then some v else cacheGet c k' := rfl

theorem searchSteamGame_preserves_cache (cache : SteamCache) (q : String)
    (net : FetchOutcome) (k : String) (v : List SearchResult)
    (h : cacheGet cache k = some v) :
    cacheGet (searchSteamGame cache q net).cache k = some v := by
  simp only [searchSteamGame]
  cases hc : cacheGet cache (searchKey q) with
  | some rs => simpa using h
  | none =>
    cases net with
    | ok items =>
      have hk : (searchKey q == k) = false := by
        rw [beq_eq_false_iff_ne]
        intro he
        rw [he, h] at hc
        cases hc
      simp [cacheGet_cacheSet, hk, h]
    | fail => simpa using h

/-- Claim C6: if a search for query `q` completes successfully with an empty
result sequence, that empty sequence is stored in the cache under the
normalized key, and every subsequent search whose query normalizes to the
same key returns the same empty sequence from the cache without issuing a
new external request. -/
theorem search_empty_success_cached (cache : SteamCache) (q : String)
    (items : List SearchItem)
    (hres : (searchSteamGame cache q (.ok items)).results = []) :
    cacheGet (searchSteamGame cache q (.ok items)).cache (searchKey q) = some [] ∧
    ∀ q' net', searchKey q' = searchKey q →
      searchSteamGame (searchSteamGame cache q (.ok items)).cache q' net' =
        ⟨[], (searchSteamGame cache q (.ok items)).cache, false⟩ := by
  cases hc : cacheGet cache (searchKey q) with
  | some rs =>
    have hS : searchSteamGame cache q (.ok items) = ⟨rs, cache, false⟩ := by
      simp only [searchSteamGame, hc]
    have hrs : rs = [] := by rw [hS] at hres; exact hres
    constructor
    · rw [hS]
      show cacheGet cache (searchKey q) = some []
      rw [hc, hrs]
    · intro q' net' hk
      rw [hS]
      simp only [searchSteamGame, hk, hc]
      rw [hrs]
  | none =>
    have hS : searchSteamGame cache q (.ok items) =
        ⟨(items.take 10).map fun it => ⟨it.name, it.id, appUrl it.id⟩,
          cacheSet cache (searchKey q)
            ((items.take 10).map fun it => ⟨it.name, it.id, appUrl it.id⟩),
          true⟩ := by
      simp only [searchSteamGame, hc]
    have hrs : ((items.take 10).map fun it =>
        (⟨it.name, it.id, appUrl it.id⟩ : SearchResult)) = [] := by
      rw [hS] at hres; exact hres
    constructor
    · rw [hS]
      simp [cacheGet_cacheSet, hrs]
    · intro q' net' hk
      rw [hS]
      simp only [searchSteamGame, hk]
      simp [cacheGet_cacheSet, hrs]

/-- Claim C6 witness: a cache-miss search on the empty cache with an empty
successful response caches the empty list and answers the repeat call from
the cache. -/
theorem search_empty_success_cached_witness :
    ((searchSteamGame [] "Zzz" (.ok [])).results = []) ∧
    (cacheGet (searchSteamGame [] "Zzz" (.ok [])).cache (searchKey "Zzz") = some [] ∧
      ∀ q' net', searchKey q' = searchKey "Zzz" →
        searchSteamGame (searchSteamGame [] "Zzz" (.ok [])).cache q' net' =
          ⟨[], (searchSteamGame [] "Zzz" (.ok [])).cache, false⟩) :=
  ⟨rfl, search_empty_success_cached [] "Zzz" [] rfl⟩

/-- Claim C7: a search that misses the cache and whose external lookup fails
(timeout, non-2xx or transport/parse error, all landing in the `catch`)
returns the empty sequence, leaves the cache exactly unchanged, and did issue
the external request. -/
theorem search_failure_not_cached (cache : SteamCache) (q : String)
    (hmiss : cacheGet cache (searchKey q) = none) :
    searchSteamGame cache q .fail = ⟨[], cache, true⟩ := by
  simp only [searchSteamGame, hmiss]

/-- Claim C7 witness: a failed lookup on the empty cache returns the empty
sequence and stores nothing. -/
theorem search_failure_not_cached_witness :
    (cacheGet [] (searchKey "Qq") = none) ∧
    searchSteamGame [] "Qq" .fail = ⟨[], [], true⟩ :=
  ⟨rfl, search_failure_not_cached [] "Qq" rfl⟩

/-- Claim C4: the dual removal deletes every entry carrying the identifier
from both collections, keeps the other entries in their relative order
(the result is a sublist containing every entry with a different id), is
idempotent, and removing an absent id is a no-op. -/
theorem removeByCatalogId_spec (appid : Nat) (st : Store) :
    (∀ g ∈ (removeByCatalogId appid st).singleList, g.appid ≠ appid) ∧
    (∀ g ∈ (removeByCatalogId appid st).multiList, g.appid ≠ appid) ∧
    List.Sublist (removeByCatalogId appid st).singleList st.singleList ∧
    List.Sublist (removeByCatalogId appid st).multiList st.multiList ∧
    (∀ g ∈ st.singleList, g.appid ≠ appid → g ∈ (removeByCatalogId appid st).singleList) ∧
    (∀ g ∈ st.multiList, g.appid ≠ appid → g ∈ (removeByCatalogId appid st).multiList) ∧
    removeByCatalogId appid (removeByCatalogId appid st) = removeByCatalogId appid st ∧
    ((∀ g ∈ st.singleList, g.appid ≠ appid) → (∀ g ∈ st.multiList, g.appid ≠ appid) →
      removeByCatalogId appid st = st) := by
  cases st with
  | mk s m =>
    refine ⟨?_, ?_, ?_, ?_, ?_, ?_, ?_, ?_⟩
    · intro g hg
      exact bne_iff_ne.mp (List.mem_filter.mp hg).2
    · intro g hg
      exact bne_iff_ne.mp (List.mem_filter.mp hg).2
    · exact List.filter_sublist s
    · exact List.filter_sublist m
    · intro g hg hne
      exact List.mem_filter.mpr ⟨hg, bne_iff_ne.mpr hne⟩
    · intro g hg hne
      exact List.mem_filter.mpr ⟨hg, bne_iff_ne.mpr hne⟩
    · simp only [removeByCatalogId, Store.mk.injEq]
      exact ⟨List.filter_eq_self.mpr fun a ha => (List.mem_filter.mp ha).2,
        List.filter_eq_self.mpr fun a ha => (List.mem_filter.mp ha).2⟩
    · intro h1 h2
      simp only [removeByCatalogId, Store.mk.injEq]
      exact ⟨List.filter_eq_self.mpr fun a ha => bne_iff_ne.mpr (h1 a ha),
        List.filter_eq_self.mpr fun a ha => bne_iff_ne.mpr (h2 a ha)⟩

/-- Claim C4 witness: the dual-removal properties instantiated on concrete
collections holding id 7 in both and id 3 in the single one. -/
theorem removeByCatalogId_spec_witness :
    (∀ g ∈ (removeByCatalogId 7 ⟨[⟨"a", 7, "s"⟩, ⟨"b", 3, "t"⟩], [⟨"c", 7, "u"⟩]⟩).singleList,
      g.appid ≠ 7) ∧
    (∀ g ∈ (removeByCatalogId 7 ⟨[⟨"a", 7, "s"⟩, ⟨"b", 3, "t"⟩], [⟨"c", 7, "u"⟩]⟩).multiList,
      g.appid ≠ 7) ∧
    List.Sublist (removeByCatalogId 7 ⟨[⟨"a", 7, "s"⟩, ⟨"b", 3, "t"⟩], [⟨"c", 7, "u"⟩]⟩).singleList
      (Store.mk [⟨"a", 7, "s"⟩, ⟨"b", 3, "t"⟩] [⟨"c", 7, "u"⟩]).singleList ∧
    List.Sublist (removeByCatalogId 7 ⟨[⟨"a", 7, "s"⟩, ⟨"b", 3, "t"⟩], [⟨"c", 7, "u"⟩]⟩).multiList
      (Store.mk [⟨"a", 7, "s"⟩, ⟨"b", 3, "t"⟩] [⟨"c", 7, "u"⟩]).multiList ∧
    (∀ g ∈ (Store.mk [⟨"a", 7, "s"⟩, ⟨"b", 3, "t"⟩] [⟨"c", 7, "u"⟩]).singleList, g.appid ≠ 7 →
      g ∈ (removeByCatalogId 7 ⟨[⟨"a", 7, "s"⟩, ⟨"b", 3, "t"⟩], [⟨"c", 7, "u"⟩]⟩).singleList) ∧
    (∀ g ∈ (Store.mk [⟨"a", 7, "s"⟩, ⟨"b", 3, "t"⟩] [⟨"c", 7, "u"⟩]).multiList, g.appid ≠ 7 →
      g ∈ (removeByCatalogId 7 ⟨[⟨"a", 7, "s"⟩, ⟨"b", 3, "t"⟩], [⟨"c", 7, "u"⟩]⟩).multiList) ∧
    removeByCatalogId 7 (removeByCatalogId 7 ⟨[⟨"a", 7, "s"⟩, ⟨"b", 3, "t"⟩], [⟨"c", 7, "u"⟩]⟩) =
      removeByCatalogId 7 ⟨[⟨"a", 7, "s"⟩, ⟨"b", 3, "t"⟩], [⟨"c", 7, "u"⟩]⟩ ∧
    ((∀ g ∈ (Store.mk [⟨"a", 7, "s"⟩, ⟨"b", 3, "t"⟩] [⟨"c", 7, "u"⟩]).singleList, g.appid ≠ 7) →
      (∀ g ∈ (Store.mk [⟨"a", 7, "s"⟩, ⟨"b", 3, "t"⟩] [⟨"c", 7, "u"⟩]).multiList, g.appid ≠ 7) →
      removeByCatalogId 7 ⟨[⟨"a", 7, "s"⟩, ⟨"b", 3, "t"⟩], [⟨"c", 7, "u"⟩]⟩ =
        ⟨[⟨"a", 7, "s"⟩, ⟨"b", 3, "t"⟩], [⟨"c", 7, "u"⟩]⟩) :=
  removeByCatalogId_spec 7 ⟨[⟨"a", 7, "s"⟩, ⟨"b", 3, "t"⟩], [⟨"c", 7, "u"⟩]⟩

/-- Claim C3: for a submission reaching the classification step with chosen
candidate `sg`, a `single` (or the nominal `both`) classification is rejected
as a duplicate exactly when an entry with `sg`'s identifier is already in the
single collection, and a `multi` classification exactly when such an entry is
already in the multi collection; presence only in the opposite collection
never causes the rejection. -/
theorem dup_check_by_collection (st : SubState) (inp : SubmitInput)
    (sg : SearchResult) (d : SteamDetails)
    (hch : inp.channelId = inp.submissionChannelId)
    (hcand : chooseCandidate
      (searchSteamGame st.steamCache inp.gameName inp.searchNet).results
      inp.gameName = some sg)
    (hdet : inp.detailsResult = some d) :
    ((getGameType d.categories = .single ∨ getGameType d.categories = .both) →
      ((wishlistCommand st inp).2 = .duplicate ↔
        ∃ g ∈ st.singleList, g.appid = sg.appid)) ∧
    (getGameType d.categories = .multi →
      ((wishlistCommand st inp).2 = .duplicate ↔
        ∃ g ∈ st.multiList, g.appid = sg.appid)) := by
  have hbne : (inp.channelId != inp.submissionChannelId) = false := by
    simp [hch]
  constructor
  · intro hty
    have hunk : getGameType d.categories ≠ .unknown := by
      rcases hty with h | h <;> simp [h]
    have hd : isDuplicateFor (getGameType d.categories) st.singleList st.multiList
        sg.appid = (st.singleList.any fun g => g.appid == sg.appid) := by
      rcases hty with h | h <;> simp [isDuplicateFor, h]
    by_cases hdup : (st.singleList.any fun g => g.appid == sg.appid) = true
    · simp only [wishlistCommand, hbne, hcand, hdet, Bool.false_eq_true, if_false,
        hunk, if_neg hunk, hd, hdup, if_true]
      simp only [List.any_eq_true, beq_iff_eq] at hdup
      simp [hdup]
    · simp only [wishlistCommand, hbne, hcand, hdet, Bool.false_eq_true, if_false,
        hunk, if_neg hunk, hd, hdup, if_false]
      simp only [List.any_eq_true, beq_iff_eq] at hdup
      rcases hty with h | h <;> simp [h, Bool.false_eq_true, hdup]
  · intro hty
    have hunk : getGameType d.categories ≠ .unknown := by simp [hty]
    have hd : isDuplicateFor (getGameType d.categories) st.singleList st.multiList
        sg.appid = (st.multiList.any fun g => g.appid == sg.appid) := by
      simp [isDuplicateFor, hty]
    by_cases hdup : (st.multiList.any fun g => g.appid == sg.appid) = true
    · simp only [wishlistCommand, hbne, hcand, hdet, Bool.false_eq_true, if_false,
        hunk, if_neg hunk, hd, hdup, if_true]
      simp only [List.any_eq_true, beq_iff_eq] at hdup
      simp [hdup]
    · simp only [wishlistCommand, hbne, hcand, hdet, Bool.false_eq_true, if_false,
        hunk, if_neg hunk, hd, hdup, if_false]
      simp only [List.any_eq_true, beq_iff_eq] at hdup
      simp [hty, Bool.false_eq_true, hdup]

/-- Claim C3 witness: on a state already holding Portal (id 400) in the
single collection, a single-player submission resolving to id 400 is
rejected as a duplicate; only the single collection decides this. -/
theorem dup_check_by_collection_witness :
    ((getGameType exDetailsSingle.categories = .single ∨
      getGameType exDetailsSingle.categories = .both) →
      ((wishlistCommand exSubState exSubmit).2 = .duplicate ↔
        ∃ g ∈ exSubState.singleList, g.appid = exCandidate.appid)) ∧
    (getGameType exDetailsSingle.categories = .multi →
      ((wishlistCommand exSubState exSubmit).2 = .duplicate ↔
        ∃ g ∈ exSubState.multiList, g.appid = exCandidate.appid)) :=
  dup_check_by_collection exSubState exSubmit exCandidate exDetailsSingle
    rfl (by decide) rfl

/-- Claim C8: a submission that ends in any failure reply leaves both
wishlist collections exactly unchanged and every entry already present in
the cache still present with the same value. -/
theorem failure_reply_no_mutation (st : SubState) (inp : SubmitInput)
    (h : (wishlistCommand st inp).2 ≠ .success) :
    (wishlistCommand st inp).1.singleList = st.singleList ∧
    (wishlistCommand st inp).1.multiList = st.multiList ∧
    ∀ k v, cacheGet st.steamCache k = some v →
      cacheGet (wishlistCommand st inp).1.steamCache k = some v := by
  by_cases hch : (inp.channelId != inp.submissionChannelId) = true
  · simp only [wishlistCommand, hch, if_true]
    exact ⟨by trivial, by trivial, fun k v hv => hv⟩
  · rw [Bool.not_eq_true] at hch
    cases hcand : chooseCandidate
        (searchSteamGame st.steamCache inp.gameName inp.searchNet).results
        inp.gameName with
    | none =>
      simp only [wishlistCommand, hch, Bool.false_eq_true, if_false, hcand]
      exact ⟨by trivial, by trivial, fun k v hv => searchSteamGame_preserves_cache _ _ _ _ _ hv⟩
    | some sg =>
      cases hdet : inp.detailsResult with
      | none =>
        simp only [wishlistCommand, hch, Bool.false_eq_true, if_false, hcand, hdet]
        exact ⟨by trivial, by trivial, fun k v hv => searchSteamGame_preserves_cache _ _ _ _ _ hv⟩
      | some d =>
        by_cases hty : getGameType d.categories = .unknown
        · simp only [wishlistCommand, hch, Bool.false_eq_true, if_false, hcand,
            hdet, hty, if_true]
          exact ⟨by trivial, by trivial, fun k v hv => searchSteamGame_preserves_cache _ _ _ _ _ hv⟩
        · by_cases hdup : isDuplicateFor (getGameType d.categories)
              st.singleList st.multiList sg.appid = true
          · simp only [wishlistCommand, hch, Bool.false_eq_true, if_false, hcand,
              hdet, if_neg hty, hdup, if_true]
            exact ⟨by trivial, by trivial, fun k v hv => searchSteamGame_preserves_cache _ _ _ _ _ hv⟩
          · exfalso
            apply h
            rw [Bool.not_eq_true] at hdup
            simp only [wishlistCommand, hch, Bool.false_eq_true, if_false, hcand,
              hdet, if_neg hty, hdup]

/-- Claim C8 witness: a wrong-channel submission changes neither collection
nor the cached Portal entry. -/
theorem failure_reply_no_mutation_witness :
    ((wishlistCommand exSubState exSubmitWrong).2 ≠ .success) ∧
    ((wishlistCommand exSubState exSubmitWrong).1.singleList = exSubState.singleList ∧
      (wishlistCommand exSubState exSubmitWrong).1.multiList = exSubState.multiList ∧
      ∀ k v, cacheGet exSubState.steamCache k = some v →
        cacheGet (wishlistCommand exSubState exSubmitWrong).1.steamCache k = some v) :=
  ⟨by decide, failure_reply_no_mutation exSubState exSubmitWrong (by decide)⟩

theorem quorumBranch_fields (ev : ReactionEvent) (st : Store) :
    (quorumBranch ev st).quorum = true ∧ (quorumBranch ev st).messageDeleted = true := by
  cases he : ev.message.embeds.head? with
  | none => simp [quorumBranch, he]
  | some embed =>
    cases hu : extractAppid embed.url with
    | none => simp [quorumBranch, he, hu]
    | some a =>
      by_cases hm : (st.multiList.any fun g => g.appid == a) = true
      · simp [quorumBranch, he, hu, hm]
      · rw [Bool.not_eq_true] at hm
        simp [quorumBranch, he, hu, hm]

theorem quorumBranch_extracted (ev : ReactionEvent) (st : Store) (appid : Nat)
    (hx : (quorumBranch ev st).extractedAppid = some appid) :
    ((quorumBranch ev st).isMultiGame = true ↔ ∃ g ∈ st.multiList, g.appid = appid) ∧
    (quorumBranch ev st).store = removeByCatalogId appid st := by
  cases he : ev.message.embeds.head? with
  | none => simp [quorumBranch, he] at hx
  | some embed =>
    cases hu : extractAppid embed.url with
    | none => simp [quorumBranch, he, hu] at hx
    | some a =>
      by_cases hm : (st.multiList.any fun g => g.appid == a) = true
      · have ha : a = appid := by
          simpa [quorumBranch, he, hu, hm] using hx
        subst ha
        have hm' : ∃ g ∈ st.multiList, g.appid = a := by
          simpa only [List.any_eq_true, beq_iff_eq] using hm
        constructor
        · simp [quorumBranch, he, hu, hm, hm']
        · simp [quorumBranch, he, hu, hm]
      · rw [Bool.not_eq_true] at hm
        have ha : a = appid := by
          simpa [quorumBranch, he, hu, hm] using hx
        subst ha
        have hm' : ¬ ∃ g ∈ st.multiList, g.appid = a := by
          intro hcon
          obtain ⟨g, hg, hgeq⟩ := hcon
          have hany : (st.multiList.any fun g => g.appid == a) = true :=
            List.any_eq_true.mpr ⟨g, hg, beq_iff_eq.mpr hgeq⟩
          rw [hm] at hany
          cases hany
        constructor
        · simp [quorumBranch, he, hu, hm, hm']
        · simp [quorumBranch, he, hu, hm]

theorem uniqueReactorsSize_eq_card (msg : Message) :
    uniqueReactorsSize msg = (nonBotReactorIds msg).toFinset.card :=
  (List.card_toFinset _).symm

theorem messageReactionAdd_extracted (ev : ReactionEvent) (st : Store) (appid : Nat)
    (hx : (messageReactionAdd ev st).extractedAppid = some appid) :
    ((messageReactionAdd ev st).isMultiGame = true ↔ ∃ g ∈ st.multiList, g.appid = appid) ∧
    (messageReactionAdd ev st).store = removeByCatalogId appid st ∧
    (messageReactionAdd ev st).quorum = true ∧
    (messageReactionAdd ev st).messageDeleted = true := by
  by_cases hg : (ev.user.bot || !ev.inGuild) = true
  · simp [messageReactionAdd, hg, noopOutcome] at hx
  · rw [Bool.not_eq_true] at hg
    by_cases hle : totalHumans ev.members ≤ uniqueReactorsSize ev.message
    · simp only [messageReactionAdd, hg, Bool.false_eq_true, if_false, hle, if_true] at hx ⊢
      obtain ⟨ha, hb⟩ := quorumBranch_extracted ev st appid hx
      obtain ⟨hc, hd⟩ := quorumBranch_fields ev st
      exact ⟨ha, hb, hc, hd⟩
    · simp [messageReactionAdd, hg, hle, noopOutcome] at hx

/-- Claim C1: for a reaction-add event actually handled (non-bot user, in a
guild), the quorum branch is taken exactly when the number of distinct
non-bot user ids, unioned across every reaction type on the message, is at
least the number of fetched members that are neither bot accounts nor hold
a role whose name contains "bot" case-insensitively. -/
theorem quorum_condition_iff (ev : ReactionEvent) (st : Store)
    (h1 : ev.user.bot = false) (h2 : ev.inGuild = true) :
    ((messageReactionAdd ev st).quorum = true ↔
      totalHumans ev.members ≤ (nonBotReactorIds ev.message).toFinset.card) := by
  have hg : (ev.user.bot || !ev.inGuild) = false := by
    rw [h1, h2]
    rfl
  by_cases hle : totalHumans ev.members ≤ uniqueReactorsSize ev.message
  · have hle' : totalHumans ev.members ≤ (nonBotReactorIds ev.message).toFinset.card := by
      rwa [uniqueReactorsSize_eq_card] at hle
    simp [messageReactionAdd, hg, hle, (quorumBranch_fields ev st).1, hle']
  · have hle' : ¬ totalHumans ev.members ≤ (nonBotReactorIds ev.message).toFinset.card := by
      rwa [uniqueReactorsSize_eq_card] at hle
    simp [messageReactionAdd, hg, hle, noopOutcome, hle']

/-- Claim C1 witness: one human member and one non-bot reactor meet the
quorum condition, and the handler takes the quorum branch. -/
theorem quorum_condition_iff_witness :
    ((messageReactionAdd exEventQuorum ⟨[], []⟩).quorum = true ↔
      totalHumans exEventQuorum.members ≤
        (nonBotReactorIds exEventQuorum.message).toFinset.card) :=
  quorum_condition_iff exEventQuorum ⟨[], []⟩ rfl rfl

/-- Claim C5: when a quorum event's announcement URL yields an identifier,
the voice-channel branch (`isMultiGame`) is entered exactly when that
identifier was in the multiplayer collection before the dual removal, and
after the handler neither collection contains an entry with it. -/
theorem completion_multi_lookup (ev : ReactionEvent) (st : Store) (appid : Nat)
    (hx : (messageReactionAdd ev st).extractedAppid = some appid) :
    ((messageReactionAdd ev st).isMultiGame = true ↔
      ∃ g ∈ st.multiList, g.appid = appid) ∧
    (∀ g ∈ (messageReactionAdd ev st).store.singleList, g.appid ≠ appid) ∧
    (∀ g ∈ (messageReactionAdd ev st).store.multiList, g.appid ≠ appid) := by
  obtain ⟨hiff, hst, -, -⟩ := messageReactionAdd_extracted ev st appid hx
  refine ⟨hiff, ?_, ?_⟩
  · rw [hst]
    intro g hg
    simp only [removeByCatalogId] at hg
    exact bne_iff_ne.mp (List.mem_filter.mp hg).2
  · rw [hst]
    intro g hg
    simp only [removeByCatalogId] at hg
    exact bne_iff_ne.mp (List.mem_filter.mp hg).2

/-- Claim C5 witness: the event with URL appid 9 and a multi collection
holding 9 enters the voice branch and leaves no entry with id 9. -/
theorem completion_multi_lookup_witness :
    ((messageReactionAdd exEventApp exStoreMulti).extractedAppid = some 9) ∧
    (((messageReactionAdd exEventApp exStoreMulti).isMultiGame = true ↔
        ∃ g ∈ exStoreMulti.multiList, g.appid = 9) ∧
      (∀ g ∈ (messageReactionAdd exEventApp exStoreMulti).store.singleList,
        g.appid ≠ 9) ∧
      (∀ g ∈ (messageReactionAdd exEventApp exStoreMulti).store.multiList,
        g.appid ≠ 9)) :=
  ⟨by decide, completion_multi_lookup exEventApp exStoreMulti 9 (by decide)⟩

/-- Claim C10: when every fetched member is a bot account or holds a role
whose name contains "bot", the eligible-human count is zero, so any handled
reaction event meets the quorum condition: the message delete is reached,
and whenever an identifier is extracted from the announcement URL the entry
is removed from both collections. -/
theorem zero_humans_single_reaction (ev : ReactionEvent) (st : Store)
    (h1 : ev.user.bot = false) (h2 : ev.inGuild = true)
    (hall : ∀ m ∈ ev.members, m.user.bot = true ∨
      (m.roleNames.any fun r => strHasSub (strToLower r) "bot") = true) :
    totalHumans ev.members = 0 ∧
    (messageReactionAdd ev st).quorum = true ∧
    (messageReactionAdd ev st).messageDeleted = true ∧
    ∀ appid, (messageReactionAdd ev st).extractedAppid = some appid →
      (∀ g ∈ (messageReactionAdd ev st).store.singleList, g.appid ≠ appid) ∧
      (∀ g ∈ (messageReactionAdd ev st).store.multiList, g.appid ≠ appid) := by
  have h0 : totalHumans ev.members = 0 := by
    unfold totalHumans
    rw [List.length_eq_zero, List.filter_eq_nil_iff]
    intro m hm
    rcases hall m hm with hb | hr
    · simp [isHumanMember, hb]
    · simp [isHumanMember, hr]
  have hg : (ev.user.bot || !ev.inGuild) = false := by
    rw [h1, h2]
    rfl
  have hq : messageReactionAdd ev st = quorumBranch ev st := by
    simp [messageReactionAdd, hg, h0]
  refine ⟨h0, ?_, ?_, ?_⟩
  · rw [hq]
    exact (quorumBranch_fields ev st).1
  · rw [hq]
    exact (quorumBranch_fields ev st).2
  · intro appid hx
    rw [hq] at hx ⊢
    have hst := (quorumBranch_extracted ev st appid hx).2
    refine ⟨?_, ?_⟩ <;> rw [hst] <;> intro g hg' <;>
      simp only [removeByCatalogId] at hg' <;>
      exact bne_iff_ne.mp (List.mem_filter.mp hg').2

/-- Claim C10 witness: with two members (a bot account and a human holding
role "Bot Role") and one non-bot reactor, the quorum branch fires and the
entry with the extracted id 5 is removed from both collections. -/
theorem zero_humans_single_reaction_witness :
    (∀ m ∈ exEventAllBots.members, m.user.bot = true ∨
      (m.roleNames.any fun r => strHasSub (strToLower r) "bot") = true) ∧
    (totalHumans exEventAllBots.members = 0 ∧
      (messageReactionAdd exEventAllBots exStoreC10).quorum = true ∧
      (messageReactionAdd exEventAllBots exStoreC10).messageDeleted = true ∧
      ∀ appid, (messageReactionAdd exEventAllBots exStoreC10).extractedAppid = some appid →
        (∀ g ∈ (messageReactionAdd exEventAllBots exStoreC10).store.singleList,
          g.appid ≠ appid) ∧
        (∀ g ∈ (messageReactionAdd exEventAllBots exStoreC10).store.multiList,
          g.appid ≠ appid)) :=
  ⟨by decide, zero_humans_single_reaction exEventAllBots exStoreC10 rfl rfl (by decide)⟩

/-- Claim C9 counterexample: the guild already has a voice channel named
exactly "Deep Rock Galactic", which matches the derived channel name
case-insensitively (here even verbatim), yet the handler still calls
create: the existence check at part_000 line 213 compares channel names
against the lower-cased derived name, so any derived name containing an
upper-case letter never matches. -/
theorem voice_create_ci_counterexample :
    (messageReactionAdd exEventDrg exStoreDrg).channelName =
      some "Deep Rock Galactic" ∧
    "Deep Rock Galactic" ∈ exEventDrg.voiceChannelNames ∧
    strToLower "Deep Rock Galactic" =
      strToLower ((messageReactionAdd exEventDrg exStoreDrg).channelName.getD "") ∧
    (messageReactionAdd exEventDrg exStoreDrg).voiceCreated = true := by
  refine ⟨by decide, by decide, by decide, by decide⟩

/-- Claim C9 as amended: when a removed entry was multiplayer and the
announcement has a title, the derived channel name is the title with each
regex-matched word capitalized and its remainder lower-cased, truncated to
at most 90 characters, and create is called exactly when no existing voice
channel's name equals the lower-cased derived name verbatim (not a
case-insensitive comparison). -/
theorem voice_channel_amended (ev : ReactionEvent) (st : Store) (appid : Nat)
    (embed : Embed) (t : String)
    (hx : (messageReactionAdd ev st).extractedAppid = some appid)
    (hm : (messageReactionAdd ev st).isMultiGame = true)
    (he : ev.message.embeds.head? = some embed)
    (ht : embed.title = some t) :
    (messageReactionAdd ev st).channelName = some (deriveChannelName t) ∧
    (deriveChannelName t).length ≤ 90 ∧
    ((messageReactionAdd ev st).voiceCreated = true ↔
      strToLower (deriveChannelName t) ∉ ev.voiceChannelNames) := by
  by_cases hg : (ev.user.bot || !ev.inGuild) = true
  · simp [messageReactionAdd, hg, noopOutcome] at hx
  · rw [Bool.not_eq_true] at hg
    by_cases hle : totalHumans ev.members ≤ uniqueReactorsSize ev.message
    · simp only [messageReactionAdd, hg, Bool.false_eq_true, if_false, hle,
        if_true] at hx hm ⊢
      cases hu : extractAppid embed.url with
      | none => simp [quorumBranch, he, hu] at hx
      | some a =>
        by_cases hmu : (st.multiList.any fun g => g.appid == a) = true
        · refine ⟨?_, ?_, ?_⟩
          · simp [quorumBranch, he, hu, hmu, ht]
          · show (List.take 90 (titleCaseGo false t.data)).length ≤ 90
            exact List.length_take_le 90 (titleCaseGo false t.data)
          · simp only [quorumBranch, he, hu, hmu, if_true, ht, Option.map_some']
            constructor
            · intro hcr hmem
              have : (ev.voiceChannelNames.any
                  fun n => n == strToLower (deriveChannelName t)) = true :=
                List.any_eq_true.mpr ⟨_, hmem, beq_self_eq_true _⟩
              rw [this] at hcr
              cases hcr
            · intro hmem
              have : (ev.voiceChannelNames.any
                  fun n => n == strToLower (deriveChannelName t)) = false := by
                rw [Bool.eq_false_iff]
                intro hcon
                obtain ⟨n, hn, hneq⟩ := List.any_eq_true.mp hcon
                exact hmem (beq_iff_eq.mp hneq ▸ hn)
              rw [this]
              rfl
        · rw [Bool.not_eq_true] at hmu
          simp [quorumBranch, he, hu, hmu] at hm
    · simp [messageReactionAdd, hg, hle, noopOutcome] at hx

/-- Claim C9 amended witness: the "deep rock galactic" event derives the
channel name "Deep Rock Galactic" (≤ 90 characters), and create is called
because no channel is named "deep rock galactic" in lower case. -/
theorem voice_channel_amended_witness :
    ((messageReactionAdd exEventDrg exStoreDrg).extractedAppid = some 548430) ∧
    ((messageReactionAdd exEventDrg exStoreDrg).isMultiGame = true) ∧
    ((messageReactionAdd exEventDrg exStoreDrg).channelName =
        some (deriveChannelName "deep rock galactic") ∧
      (deriveChannelName "deep rock galactic").length ≤ 90 ∧
      ((messageReactionAdd exEventDrg exStoreDrg).voiceCreated = true ↔
        strToLower (deriveChannelName "deep rock galactic") ∉
          exEventDrg.voiceChannelNames)) :=
  ⟨by decide, by decide,
    voice_channel_amended exEventDrg exStoreDrg 548430
      ⟨some "deep rock galactic", some (appUrl 548430)⟩ "deep rock galactic"
      (by decide) (by decide) rfl rfl⟩

end GameWishlistBot
